import Mathlib

/-!
Verification of the analytics-dashboard pipeline in `app.py`.

The file shallowly embeds the data model and the filter/aggregate/pivot
pipeline of the dashboard: dataframes become lists of row structures,
pandas filters become `List.filter`, group-by/sum becomes dedup + mapped
sums, the pivot/reindex steps of the booking heatmap become explicit
list constructions, and the figure returned by a callback becomes a
structure holding the fields the claims talk about (trace data and
in-chart annotations).  Dates are concrete Gregorian dates; pandas
`day_name()` is embedded with Zeller's congruence.
-/

/-- A calendar date, embedding `Order_Date` / `Course_Date` values
(`pd.to_datetime` results, compared chronologically). -/
structure Date where
  year : Nat
  month : Nat
  day : Nat
deriving DecidableEq, Repr

/-- Chronological encoding of a date (months `1..12`, days `1..31`),
used for the `>= start_date` / `<= end_date` comparisons. -/
def dateVal (d : Date) : Nat :=
  d.year * 10000 + d.month * 100 + d.day

/-- `Order_Date.dt.strftime` with format `%Y-%m`: the month key of a date,
encoded so that the numeric order agrees with the lexicographic order of
the `YYYY-MM` strings. -/
def monthKey (d : Date) : Nat :=
  d.year * 100 + d.month

/-- The `days_order` list of the booking-heatmap callbacks. -/
def daysOrder : List String :=
  ["Monday", "Tuesday", "Wednesday", "Thursday", "Friday", "Saturday", "Sunday"]

/-- Weekday index of a date by Zeller's congruence, `0` = Monday ..
`6` = Sunday; this embeds the calendar lookup behind pandas
`Order_Date.dt.day_name()`. -/
def dayIdx (d : Date) : Nat :=
  let m := if d.month < 3 then d.month + 12 else d.month
  let y := if d.month < 3 then d.year - 1 else d.year
  let k := y % 100
  let j := y / 100
  let h := (d.day + (13 * (m + 1)) / 5 + k + k / 4 + j / 4 + 5 * j) % 7
  (h + 5) % 7

/-- `Order_Date.dt.day_name()` for a date. -/
def dayName (d : Date) : String :=
  daysOrder.getD (dayIdx d) "Monday"

/-- One row of `base_data` (the result of `load_transaction_data`): a
transaction joined with the student's basic, learning-area and course
attributes. -/
structure BaseRow where
  transactionId : Nat
  studentId : Nat
  orderDate : Date
  customerAge : Int
  customerGender : String
  city : String
  region : String
  courseTypeName : String
  amount : ℚ
deriving DecidableEq, Repr

/-- The cross-cutting filter inputs received by the chart callbacks:
`start_date` / `end_date` from the date picker, the `[lo, hi]` age range
from the slider, and the multi-select course-type / city / gender
dropdowns (an empty list embeds Python-falsy `None`/`[]`, for which the
source skips the corresponding `if` branch). -/
structure FilterIn where
  startDate : Option Date
  endDate : Option Date
  ageRange : Option (Int × Int)
  courseTypes : List String
  cities : List String
  genders : List String
deriving Repr

/-- The date predicate of the callbacks:
`(df['Order_Date'] >= start_date) & (df['Order_Date'] <= end_date)`. -/
def datePred (s e d : Date) : Prop :=
  dateVal s ≤ dateVal d ∧ dateVal d ≤ dateVal e

instance (s e d : Date) : Decidable (datePred s e d) := by
  unfold datePred; infer_instance

/-- Stage 1 of the shared pipeline (`update_monthly_revenue`,
`update_booking_heatmap`): the date-range filter, applied only when both
`start_date` and `end_date` are set (`if start_date and end_date:`). -/
def afterDate (inp : FilterIn) (df : List BaseRow) : List BaseRow :=
  match inp.startDate, inp.endDate with
  | some s, some e => df.filter (fun r => decide (datePred s e r.orderDate))
  | _, _ => df

/-- Stage 2: the age-range filter
`(df['Customer_Age'] >= age_range[0]) & (df['Customer_Age'] <= age_range[1])`,
applied when `age_range` is truthy. -/
def afterAge (inp : FilterIn) (df : List BaseRow) : List BaseRow :=
  match inp.ageRange with
  | some (lo, hi) =>
      (afterDate inp df).filter (fun r => decide (lo ≤ r.customerAge ∧ r.customerAge ≤ hi))
  | none => afterDate inp df

/-- Stage 3: `df['Course_Type_Name'].isin(course_types)`, applied when
the selection is non-empty. -/
def afterCourse (inp : FilterIn) (df : List BaseRow) : List BaseRow :=
  if inp.courseTypes = [] then afterAge inp df
  else (afterAge inp df).filter (fun r => r.courseTypeName ∈ inp.courseTypes)

/-- Stage 4: `df['City'].isin(cities)`, applied when the selection is
non-empty. -/
def afterCities (inp : FilterIn) (df : List BaseRow) : List BaseRow :=
  if inp.cities = [] then afterCourse inp df
  else (afterCourse inp df).filter (fun r => r.city ∈ inp.cities)

/-- Stage 5: `df['Customer_Gender'].isin(genders)`, applied when the
selection is non-empty. -/
def afterGenders (inp : FilterIn) (df : List BaseRow) : List BaseRow :=
  if inp.genders = [] then afterCities inp df
  else (afterCities inp df).filter (fun r => r.customerGender ∈ inp.genders)

/-- The full filter chain shared by the monthly-revenue and
booking-heatmap callbacks, starting from `base_data.copy()`. -/
def applyBaseFilters (inp : FilterIn) (df : List BaseRow) : List BaseRow :=
  afterGenders inp df

/-- Group-by keys of
`filtered_df.groupby(filtered_df['Order_Date'].dt.strftime('%Y-%m'))`:
the distinct month keys, in the ascending order pandas `groupby` uses. -/
def monthKeys (df : List BaseRow) : List Nat :=
  ((df.map (fun r => monthKey r.orderDate)).dedup).insertionSort (· ≤ ·)

/-- The `['Amount'].sum()` aggregate for one month group. -/
def monthRevenueAt (df : List BaseRow) (k : Nat) : ℚ :=
  ((df.filter (fun r => monthKey r.orderDate = k)).map (·.amount)).sum

/-- The `monthly_revenue` table: month key with summed amount, one row per
distinct month, ascending. -/
def monthlyRevenue (df : List BaseRow) : List (Nat × ℚ) :=
  (monthKeys df).map (fun k => (k, monthRevenueAt df k))

/-- `Series.pct_change() * 100`: entry `0` is NaN (embedded as `none`),
entry `i+1` is `(value i+1 / value i - 1) * 100`. -/
def pctChange100 (l : List ℚ) : List (Option ℚ) :=
  l.enum.map (fun p =>
    if p.1 = 0 then none
    else some ((p.2 / l.getD (p.1 - 1) 0 - 1) * 100))

/-- The figure built by `update_monthly_revenue`: the bar trace
(month keys and summed amounts), the growth-rate line, and the list of
in-chart annotations (the source adds none in this callback). -/
structure RevFig where
  barMonths : List Nat
  barRevenue : List ℚ
  growthLine : List (Option ℚ)
  annotations : List String
deriving Repr

/-- The `update_monthly_revenue` callback: filter `base_data`, group by
month, sum `Amount`, compute `pct_change() * 100`, and build the figure.
No annotation is ever added. -/
def updateMonthlyRevenueFig (inp : FilterIn) (df : List BaseRow) : RevFig :=
  let mr := monthlyRevenue (applyBaseFilters inp df)
  { barMonths := mr.map (·.1)
    barRevenue := mr.map (·.2)
    growthLine := pctChange100 (mr.map (·.2))
    annotations := [] }

/-- One row of `DA_data` after `load_data_DA`: student attributes joined
with learning area and course type; `Course_Type_Name` stays missing
(`none`) when the course-type id is not 1, 2 or 3 (left merge). -/
structure DARow where
  studentID : Nat
  age : Int
  gender : String
  city : String
  learningArea : String
  courseTypeName : Option String
deriving DecidableEq, Repr

/-- `filtered_transactions['Student_id'].unique()` after the date filter
in `update_demographics`. -/
def demoRelevantStudents (inp : FilterIn) (base : List BaseRow) : List Nat :=
  ((afterDate inp base).map (·.studentId)).dedup

/-- The filter chain of `update_demographics`: restrict `DA_data` to the
students of the date-filtered transactions, then apply the age, course
and city filters (this callback receives the chart-selector buttons in
place of a gender input, so `genders` is not consulted). -/
def demoFiltered (inp : FilterIn) (base : List BaseRow) (da : List DARow) : List DARow :=
  let f1 := da.filter (fun r => r.studentID ∈ demoRelevantStudents inp base)
  let f2 :=
    match inp.ageRange with
    | some (lo, hi) => f1.filter (fun r => decide (lo ≤ r.age ∧ r.age ≤ hi))
    | none => f1
  let f3 :=
    if inp.courseTypes = [] then f2
    else f2.filter (fun r =>
      match r.courseTypeName with
      | some n => n ∈ inp.courseTypes
      | none => false)
  if inp.cities = [] then f3 else f3.filter (fun r => r.city ∈ inp.cities)

/-- The text of the in-chart empty-result annotation. -/
def noDataText : String := "No data available for the selected filters"

/-- The figure of `update_demographics`: its annotations and the rows
the selected chart branch draws from. -/
structure DemoFig where
  annotations : List String
  payload : List DARow
deriving Repr

/-- The `update_demographics` callback: on an empty filtered result the
source adds the no-data annotation and returns at once; otherwise the
chart branch for the pressed button is built with no annotation. -/
def updateDemographicsFig (inp : FilterIn) (base : List BaseRow) (da : List DARow) : DemoFig :=
  let f := demoFiltered inp base da
  if f.length = 0 then { annotations := [noDataText], payload := [] }
  else { annotations := [], payload := f }

/-- One row of `TP_data` after `load_data_TP` (`course_history` joined
with teacher and student attributes, `fillna` already applied to the
name, gender and area columns).  The field `courseTypeName` records the
ground-truth course type of the joined `course_student` row: the
loader's `SELECT` does not include this column and no teacher-trend
filter reads it; it is carried here only so that claims about
course-type restrictions can be stated against the callback. -/
structure TPRow where
  teacherId : Nat
  teacherName : String
  studentId : Nat
  studentGender : String
  studentAge : Int
  learningCity : String
  learningArea : String
  courseDate : Date
  courseTypeName : String
deriving DecidableEq, Repr

/-- The `Remove Unknown data` step of the teacher callbacks:
`(Teacher_Name != 'Unknown') & (Teacher_Name.notna())` (the `notna`
half is always true after the loader's `fillna`). -/
def tpKnown (df : List TPRow) : List TPRow :=
  df.filter (fun r => r.teacherName ≠ "Unknown")

/-- Teacher-callback date filter on `Course_Date`. -/
def tpAfterDate (inp : FilterIn) (df : List TPRow) : List TPRow :=
  match inp.startDate, inp.endDate with
  | some s, some e => (tpKnown df).filter (fun r => decide (datePred s e r.courseDate))
  | _, _ => tpKnown df

/-- Teacher-callback age filter on `Student_Age`. -/
def tpAfterAge (inp : FilterIn) (df : List TPRow) : List TPRow :=
  match inp.ageRange with
  | some (lo, hi) =>
      (tpAfterDate inp df).filter (fun r => decide (lo ≤ r.studentAge ∧ r.studentAge ≤ hi))
  | none => tpAfterDate inp df

/-- Teacher-callback city filter, `Learning_City.isin(cities)`. -/
def tpAfterCities (inp : FilterIn) (df : List TPRow) : List TPRow :=
  if inp.cities = [] then tpAfterAge inp df
  else (tpAfterAge inp df).filter (fun r => r.learningCity ∈ inp.cities)

/-- Teacher-callback gender filter, `Student_Gender.isin(genders)`. -/
def tpAfterGenders (inp : FilterIn) (df : List TPRow) : List TPRow :=
  if inp.genders = [] then tpAfterCities inp df
  else (tpAfterCities inp df).filter (fun r => r.studentGender ∈ inp.genders)

/-- The whole filter chain of `update_teacher_trend`: Unknown removal,
then the date, age, city and gender filters.  The callback receives
`course_types` (it is wired as an `Input`), but its body contains no
course-type filter, so `inp.courseTypes` is never consulted here. -/
def teacherTrendFiltered (inp : FilterIn) (df : List TPRow) : List TPRow :=
  tpAfterGenders inp df

/-- The descending-count order used to sort
`groupby('Teacher_Name').size().sort_values(ascending=False)`. -/
def countGE (a b : String × Nat) : Prop := b.2 ≤ a.2

instance : DecidableRel countGE := fun a b => by unfold countGE; infer_instance

instance : IsTotal (String × Nat) countGE :=
  ⟨fun a b => le_total b.2 a.2⟩

instance : IsTrans (String × Nat) countGE :=
  ⟨fun _ _ _ h h2 => le_trans h2 h⟩

/-- The distinct teacher names of a dataframe (the group keys of
`groupby('Teacher_Name')`). -/
def teacherNames (df : List TPRow) : List String :=
  (df.map (·.teacherName)).dedup

/-- The `.size()` of one teacher group: the row count for that name. -/
def teacherCount (df : List TPRow) (n : String) : Nat :=
  (df.filter (fun r => r.teacherName = n)).length

/-- `teacher_totals`: class count per distinct teacher, sorted by count
descending (`sort_values(ascending=False)`). -/
def teacherTotals (df : List TPRow) : List (String × Nat) :=
  ((teacherNames df).map (fun n => (n, teacherCount df n))).insertionSort countGE

/-- The top-teacher restriction of `update_teacher_trend`: when the
filtered data has more than 10 distinct teachers, keep only the rows of
the 5 teachers with the highest class counts (`head(5)` of the sorted
totals); otherwise keep everything. -/
def restrictTopTeachers (df : List TPRow) : List TPRow :=
  if 10 < (teacherTotals df).length then
    df.filter (fun r => r.teacherName ∈ ((teacherTotals df).take 5).map (·.1))
  else df

/-- The data the teacher class-trend chart is drawn from: the filtered
rows after the top-teacher restriction. -/
def updateTeacherTrendRows (inp : FilterIn) (df : List TPRow) : List TPRow :=
  restrictTopTeachers (teacherTrendFiltered inp df)

/-- Distinct month keys occurring in a (filtered) base dataframe. -/
def monthsOf (df : List BaseRow) : List Nat :=
  (df.map (fun r => monthKey r.orderDate)).dedup

/-- Distinct day names occurring in a (filtered) base dataframe. -/
def daysOf (df : List BaseRow) : List String :=
  (df.map (fun r => dayName r.orderDate)).dedup

/-- The group keys of `groupby(['Day_of_Week', 'Month'])` in the
booking-heatmap callbacks. -/
def heatKeys (df : List BaseRow) : List (String × Nat) :=
  (df.map (fun r => (dayName r.orderDate, monthKey r.orderDate))).dedup

/-- `heatmap_data`: summed `Amount` per (day, month) group. -/
def heatGroups (df : List BaseRow) : List ((String × Nat) × ℚ) :=
  (heatKeys df).map (fun k =>
    (k, ((df.filter (fun r => dayName r.orderDate = k.1 ∧ monthKey r.orderDate = k.2)).map
          (·.amount)).sum))

/-- The left merge of `all_combinations` (the 7 day names) with
`heatmap_data`, followed by `fillna(0)`: each day contributes its group
rows, and a day with no group contributes one row whose `Month` cell is
the filled value 0 (embedded as `none`) and whose `Amount` is 0. -/
def mergedBlock (df : List BaseRow) (d : String) : List (String × Option Nat × ℚ) :=
  if ((heatGroups df).filter (fun e => e.1.1 = d)).isEmpty then [(d, none, (0 : ℚ))]
  else ((heatGroups df).filter (fun e => e.1.1 = d)).map (fun e => (e.1.1, some e.1.2, e.2))

/-- The merged table itself: one run of rows per entry of `days_order`. -/
def mergedHeat (df : List BaseRow) : List (String × Option Nat × ℚ) :=
  daysOrder.flatMap (mergedBlock df)

/-- The index labels of
`heatmap_data.pivot(index='Day_of_Week', columns='Month', values='Amount')`
before the final `reindex(index=days_order)`: the distinct `Day_of_Week`
values of the merged table. -/
def bookingPivotRowLabels (df : List BaseRow) : List String :=
  ((mergedHeat df).map (·.1)).dedup

/-- The column labels of the booking-heatmap pivot: the distinct `Month`
values of the merged table (`none` is the 0 written by `fillna`). -/
def bookingPivotColLabels (df : List BaseRow) : List (Option Nat) :=
  ((mergedHeat df).map (fun e => e.2.1)).dedup

/-- The figure of `update_booking_heatmap`: after
`reindex(index=days_order)` the row labels are the entries of
`days_order`; the column labels are those of the pivot; the source adds
no annotation in this callback. -/
structure HeatFig where
  rowLabels : List String
  colLabels : List (Option Nat)
  annotations : List String
deriving Repr

/-- The `update_booking_heatmap` callback. -/
def updateBookingHeatmapFig (inp : FilterIn) (df : List BaseRow) : HeatFig :=
  let f := applyBaseFilters inp df
  { rowLabels := daysOrder
    colLabels := bookingPivotColLabels f
    annotations := [] }

/-- The four tables `load_data_DA` requires. -/
def requiredTables : List String :=
  ["student_basic", "student_learning_area", "student_learning_type", "course_student"]

/-- `set(required_tables) - set(existing_tables)`: the required tables
absent from the database (the `sqlite_master` query returns exactly the
required tables that exist, so this is `required` minus the database's
tables). -/
def missingTables (dbTables : List String) : List String :=
  requiredTables.filter (fun t => t ∉ dbTables)

/-- The message of the exception raised by the missing-table check. -/
def missingTablesMsg (missing : List String) : String :=
  "Missing tables in database: " ++ String.intercalate ", " missing

/-- The missing-table validation at the top of `load_data_DA`:
raise (return `Except.error`) exactly when some required table is
missing, with a message naming the missing tables. -/
def loadDataDACheck (dbTables : List String) : Except String Unit :=
  if missingTables dbTables = [] then Except.ok ()
  else Except.error (missingTablesMsg (missingTables dbTables))

/-- `load_data_DA` as a whole: the missing-table validation, then the
join query — the function has no `try`/`except`, so a query failure
propagates — then the `DA_data.empty` check, which raises
`"No data was retrieved from the database"`; on success the merge and
`fillna` cleaning keep the rows (already reflected in `DARow`). -/
def loadDataDA (dbTables : List String) (q : Except String (List DARow)) :
    Except String (List DARow) :=
  match loadDataDACheck dbTables with
  | Except.error e => Except.error e
  | Except.ok () =>
      match q with
      | Except.error e => Except.error e
      | Except.ok rows =>
          if rows.isEmpty then
            Except.error "No data was retrieved from the database"
          else Except.ok rows

/-- `load_data_TP`: the query runs inside `try`/`except`; a failure is
caught, printed, and an *empty dataframe* is returned instead of
re-raising.  An empty successful result also falls through to
`return pd.DataFrame()`. -/
def loadDataTP (q : Except String (List TPRow)) : List TPRow :=
  match q with
  | Except.ok rows => if rows.isEmpty then [] else rows
  | Except.error _ => []

/-- `load_data_BT` (and the underlying `load_transaction_data`): no
`try`/`except` anywhere, so a query failure propagates to the caller. -/
def loadDataBT (q : Except String (List BaseRow)) : Except String (List BaseRow) :=
  q

/-- `load_data_MR`: groups the transactions by month, sums `Amount` and
computes `pct_change() * 100`; a query failure propagates. -/
def loadDataMR (q : Except String (List BaseRow)) :
    Except String (List (Nat × ℚ) × List (Option ℚ)) :=
  match q with
  | Except.ok rows =>
      Except.ok (monthlyRevenue rows, pctChange100 ((monthlyRevenue rows).map (·.2)))
  | Except.error e => Except.error e

/-- The five age-group labels of the teacher-student heatmap. -/
def ageGroupLabels : List String := ["0-20", "21-30", "31-40", "41-50", "50+"]

/-- `pd.cut(Student_Age, bins=[0, 20, 30, 40, 50, 100], labels=[...])`:
right-closed bins, so a value is labelled when it lies in one of
(0,20], (20,30], (30,40], (40,50], (50,100], and is NaN (`none`)
otherwise. -/
def ageGroup (a : Int) : Option String :=
  if 0 < a ∧ a ≤ 20 then some "0-20"
  else if 20 < a ∧ a ≤ 30 then some "21-30"
  else if 30 < a ∧ a ≤ 40 then some "31-40"
  else if 40 < a ∧ a ≤ 50 then some "41-50"
  else if 50 < a ∧ a ≤ 100 then some "50+"
  else none

/-- `groupby(['Teacher_Name', 'Age_Group'])['Student_ID'].nunique()` for
one (teacher, label) cell: rows whose age falls outside every bin have a
NaN `Age_Group` and are dropped by `groupby`, so they are counted in no
cell. -/
def uniqueStudentCount (df : List TPRow) (t : String) (g : String) : Nat :=
  (((df.filter (fun r => r.teacherName = t ∧ ageGroup r.studentAge = some g)).map
      (·.studentId)).dedup).length

/-- The figure of the teacher class-trend callback
(`update_teacher_trend`): stacked bars of monthly class counts for the
kept teachers; the source body contains no `add_annotation` call, so
its annotation list is empty. -/
structure TrendFig where
  teachers : List String
  payload : List TPRow
  annotations : List String
deriving Repr

/-- The `update_teacher_trend` class-trend callback as a figure. -/
def updateTeacherTrendFig (inp : FilterIn) (df : List TPRow) : TrendFig :=
  { teachers := teacherNames (updateTeacherTrendRows inp df)
    payload := updateTeacherTrendRows inp df
    annotations := [] }

/-- The rows the teacher-student heatmap callback pivots: after the
filter chain and the `> 10` top-teacher restriction, the source applies
the same Unknown-removal and filter chain a second time (a duplicated
block; it is idempotent on already-filtered data but is embedded as
written). -/
def teacherHeatBase (inp : FilterIn) (df : List TPRow) : List TPRow :=
  teacherTrendFiltered inp (restrictTopTeachers (teacherTrendFiltered inp df))

/-- The unique-student totals per teacher of the heatmap callback
(`groupby('Teacher_Name')['Student_ID'].nunique()`), sorted
descending. -/
def heatUniqueTotals (f : List TPRow) : List (String × Nat) :=
  ((teacherNames f).map (fun n =>
      (n, ((f.filter (fun r => r.teacherName = n)).map
            (·.studentId)).dedup.length))).insertionSort countGE

/-- The heatmap's row teachers: the top 5 by unique students when more
than 5 teachers remain, else all, in descending order
(`teacher_totals.head(5)` and the `.loc[teacher_totals.index]`
reorder). -/
def heatSelectedTeachers (f : List TPRow) : List String :=
  if 5 < (heatUniqueTotals f).length then
    ((heatUniqueTotals f).take 5).map (·.1)
  else (heatUniqueTotals f).map (·.1)

/-- The figure of the teacher-student heatmap callback
(`update_teacher_trend` on `teacher-student-heatmap`): the pivot of
unique-student counts per kept teacher and age-group label; the source
body contains no `add_annotation` call, so its annotation list is
empty. -/
structure TeacherHeatFig where
  rowTeachers : List String
  cells : List (String × String × Nat)
  annotations : List String
deriving Repr

/-- The teacher-student heatmap callback as a figure. -/
def updateTeacherHeatmapFig (inp : FilterIn) (df : List TPRow) : TeacherHeatFig :=
  { rowTeachers := heatSelectedTeachers (teacherHeatBase inp df)
    cells := (heatSelectedTeachers (teacherHeatBase inp df)).flatMap (fun t =>
      ageGroupLabels.map (fun g =>
        (t, g, uniqueStudentCount (teacherHeatBase inp df) t g)))
    annotations := [] }

/-- The module-level in-memory snapshot loaded once at process start. -/
structure Env where
  baseData : List BaseRow
  daData : List DARow
  tpData : List TPRow
  mrData : List (Nat × ℚ)
  btData : List BaseRow
deriving Repr

/-- `update_monthly_revenue` as a state transformer over the snapshot:
the body starts from `base_data.copy()` and every later assignment
(new columns, reassignments of `filtered_df`) targets that copy, so the
snapshot component of the result is the input snapshot unchanged. -/
def updateMonthlyRevenueStep (env : Env) (inp : FilterIn) : RevFig × Env :=
  (updateMonthlyRevenueFig inp env.baseData, env)

/-- `update_booking_heatmap` as a state transformer over the snapshot
(the `Day_of_Week` / `Month` column assignments act on the copy). -/
def updateBookingHeatmapStep (env : Env) (inp : FilterIn) : HeatFig × Env :=
  (updateBookingHeatmapFig inp env.baseData, env)

/-- `update_demographics` as a state transformer over the snapshot. -/
def updateDemographicsStep (env : Env) (inp : FilterIn) : DemoFig × Env :=
  (updateDemographicsFig inp env.baseData env.daData, env)

/-- `update_teacher_trend` as a state transformer over the snapshot:
the body starts from `TP_data.copy()`. -/
def updateTeacherTrendStep (env : Env) (inp : FilterIn) : List TPRow × Env :=
  (updateTeacherTrendRows inp env.tpData, env)

section FilterLemmas

theorem afterDate_length_le (inp : FilterIn) (df : List BaseRow) :
    (afterDate inp df).length ≤ df.length := by
  unfold afterDate
  cases inp.startDate <;> cases inp.endDate <;> simp [List.length_filter_le]

theorem afterAge_length_le (inp : FilterIn) (df : List BaseRow) :
    (afterAge inp df).length ≤ (afterDate inp df).length := by
  unfold afterAge
  rcases inp.ageRange with _ | ⟨lo, hi⟩ <;> simp [List.length_filter_le]

theorem afterCourse_length_le (inp : FilterIn) (df : List BaseRow) :
    (afterCourse inp df).length ≤ (afterAge inp df).length := by
  unfold afterCourse
  split <;> simp [List.length_filter_le]

theorem afterCities_length_le (inp : FilterIn) (df : List BaseRow) :
    (afterCities inp df).length ≤ (afterCourse inp df).length := by
  unfold afterCities
  split <;> simp [List.length_filter_le]

theorem afterGenders_length_le (inp : FilterIn) (df : List BaseRow) :
    (afterGenders inp df).length ≤ (afterCities inp df).length := by
  unfold afterGenders
  split <;> simp [List.length_filter_le]

theorem afterDate_sound (inp : FilterIn) (df : List BaseRow) (s e : Date)
    (hs : inp.startDate = some s) (he : inp.endDate = some e) :
    ∀ r ∈ afterDate inp df, datePred s e r.orderDate := by
  intro r hr
  unfold afterDate at hr
  rw [hs, he] at hr
  simpa using (List.mem_filter.mp hr).2

theorem afterAge_sound (inp : FilterIn) (df : List BaseRow) (lo hi : Int)
    (h : inp.ageRange = some (lo, hi)) :
    ∀ r ∈ afterAge inp df, lo ≤ r.customerAge ∧ r.customerAge ≤ hi := by
  intro r hr
  unfold afterAge at hr
  rw [h] at hr
  simpa using (List.mem_filter.mp hr).2

theorem afterCourse_sound (inp : FilterIn) (df : List BaseRow)
    (h : inp.courseTypes ≠ []) :
    ∀ r ∈ afterCourse inp df, r.courseTypeName ∈ inp.courseTypes := by
  intro r hr
  unfold afterCourse at hr
  rw [if_neg h] at hr
  simpa using (List.mem_filter.mp hr).2

theorem afterCities_sound (inp : FilterIn) (df : List BaseRow)
    (h : inp.cities ≠ []) :
    ∀ r ∈ afterCities inp df, r.city ∈ inp.cities := by
  intro r hr
  unfold afterCities at hr
  rw [if_neg h] at hr
  simpa using (List.mem_filter.mp hr).2

theorem afterGenders_sound (inp : FilterIn) (df : List BaseRow)
    (h : inp.genders ≠ []) :
    ∀ r ∈ afterGenders inp df, r.customerGender ∈ inp.genders := by
  intro r hr
  unfold afterGenders at hr
  rw [if_neg h] at hr
  simpa using (List.mem_filter.mp hr).2

theorem tpKnown_length_le (df : List TPRow) :
    (tpKnown df).length ≤ df.length :=
  List.length_filter_le _ df

theorem tpAfterDate_length_le (inp : FilterIn) (df : List TPRow) :
    (tpAfterDate inp df).length ≤ (tpKnown df).length := by
  unfold tpAfterDate
  cases inp.startDate <;> cases inp.endDate <;> simp [List.length_filter_le]

theorem tpAfterAge_length_le (inp : FilterIn) (df : List TPRow) :
    (tpAfterAge inp df).length ≤ (tpAfterDate inp df).length := by
  unfold tpAfterAge
  rcases inp.ageRange with _ | ⟨lo, hi⟩ <;> simp [List.length_filter_le]

theorem tpAfterCities_length_le (inp : FilterIn) (df : List TPRow) :
    (tpAfterCities inp df).length ≤ (tpAfterAge inp df).length := by
  unfold tpAfterCities
  split <;> simp [List.length_filter_le]

theorem tpAfterGenders_length_le (inp : FilterIn) (df : List TPRow) :
    (tpAfterGenders inp df).length ≤ (tpAfterCities inp df).length := by
  unfold tpAfterGenders
  split <;> simp [List.length_filter_le]

theorem tpAfterDate_sound (inp : FilterIn) (df : List TPRow) (s e : Date)
    (hs : inp.startDate = some s) (he : inp.endDate = some e) :
    ∀ r ∈ tpAfterDate inp df, datePred s e r.courseDate := by
  intro r hr
  unfold tpAfterDate at hr
  rw [hs, he] at hr
  simpa using (List.mem_filter.mp hr).2

theorem tpAfterAge_sound (inp : FilterIn) (df : List TPRow) (lo hi : Int)
    (h : inp.ageRange = some (lo, hi)) :
    ∀ r ∈ tpAfterAge inp df, lo ≤ r.studentAge ∧ r.studentAge ≤ hi := by
  intro r hr
  unfold tpAfterAge at hr
  rw [h] at hr
  simpa using (List.mem_filter.mp hr).2

theorem tpAfterCities_sound (inp : FilterIn) (df : List TPRow)
    (h : inp.cities ≠ []) :
    ∀ r ∈ tpAfterCities inp df, r.learningCity ∈ inp.cities := by
  intro r hr
  unfold tpAfterCities at hr
  rw [if_neg h] at hr
  simpa using (List.mem_filter.mp hr).2

theorem tpAfterGenders_sound (inp : FilterIn) (df : List TPRow)
    (h : inp.genders ≠ []) :
    ∀ r ∈ tpAfterGenders inp df, r.studentGender ∈ inp.genders := by
  intro r hr
  unfold tpAfterGenders at hr
  rw [if_neg h] at hr
  simpa using (List.mem_filter.mp hr).2

end FilterLemmas

/-- C1: across the chart callbacks (the shared base pipeline of
`update_monthly_revenue` / `update_booking_heatmap` and the teacher
pipeline of `update_teacher_trend`), for every combination of filter
inputs each applied predicate narrows the row count monotonically, and
every row surviving an applied predicate satisfies that predicate. -/
theorem filter_predicates_narrow_monotonically
    (inp : FilterIn) (df : List BaseRow) (tdf : List TPRow) :
    ((afterDate inp df).length ≤ df.length
      ∧ (afterAge inp df).length ≤ (afterDate inp df).length
      ∧ (afterCourse inp df).length ≤ (afterAge inp df).length
      ∧ (afterCities inp df).length ≤ (afterCourse inp df).length
      ∧ (afterGenders inp df).length ≤ (afterCities inp df).length)
    ∧ ((∀ s e, inp.startDate = some s → inp.endDate = some e →
          ∀ r ∈ afterDate inp df, datePred s e r.orderDate)
      ∧ (∀ lo hi, inp.ageRange = some (lo, hi) →
          ∀ r ∈ afterAge inp df, lo ≤ r.customerAge ∧ r.customerAge ≤ hi)
      ∧ (inp.courseTypes ≠ [] →
          ∀ r ∈ afterCourse inp df, r.courseTypeName ∈ inp.courseTypes)
      ∧ (inp.cities ≠ [] → ∀ r ∈ afterCities inp df, r.city ∈ inp.cities)
      ∧ (inp.genders ≠ [] →
          ∀ r ∈ afterGenders inp df, r.customerGender ∈ inp.genders))
    ∧ ((tpKnown tdf).length ≤ tdf.length
      ∧ (tpAfterDate inp tdf).length ≤ (tpKnown tdf).length
      ∧ (tpAfterAge inp tdf).length ≤ (tpAfterDate inp tdf).length
      ∧ (tpAfterCities inp tdf).length ≤ (tpAfterAge inp tdf).length
      ∧ (tpAfterGenders inp tdf).length ≤ (tpAfterCities inp tdf).length)
    ∧ ((∀ s e, inp.startDate = some s → inp.endDate = some e →
          ∀ r ∈ tpAfterDate inp tdf, datePred s e r.courseDate)
      ∧ (∀ lo hi, inp.ageRange = some (lo, hi) →
          ∀ r ∈ tpAfterAge inp tdf, lo ≤ r.studentAge ∧ r.studentAge ≤ hi)
      ∧ (inp.cities ≠ [] → ∀ r ∈ tpAfterCities inp tdf, r.learningCity ∈ inp.cities)
      ∧ (inp.genders ≠ [] →
          ∀ r ∈ tpAfterGenders inp tdf, r.studentGender ∈ inp.genders)) := by
  refine ⟨⟨?_, ?_, ?_, ?_, ?_⟩, ⟨?_, ?_, ?_, ?_, ?_⟩, ⟨?_, ?_, ?_, ?_, ?_⟩, ?_, ?_, ?_, ?_⟩
  · exact afterDate_length_le inp df
  · exact afterAge_length_le inp df
  · exact afterCourse_length_le inp df
  · exact afterCities_length_le inp df
  · exact afterGenders_length_le inp df
  · exact fun s e hs he => afterDate_sound inp df s e hs he
  · exact fun lo hi h => afterAge_sound inp df lo hi h
  · exact fun h => afterCourse_sound inp df h
  · exact fun h => afterCities_sound inp df h
  · exact fun h => afterGenders_sound inp df h
  · exact tpKnown_length_le tdf
  · exact tpAfterDate_length_le inp tdf
  · exact tpAfterAge_length_le inp tdf
  · exact tpAfterCities_length_le inp tdf
  · exact tpAfterGenders_length_le inp tdf
  · exact fun s e hs he => tpAfterDate_sound inp tdf s e hs he
  · exact fun lo hi h => tpAfterAge_sound inp tdf lo hi h
  · exact fun h => tpAfterCities_sound inp tdf h
  · exact fun h => tpAfterGenders_sound inp tdf h

/-- A one-transaction dataframe used to instantiate the theorems. -/
def wRow : BaseRow :=
  { transactionId := 1, studentId := 7, orderDate := ⟨2024, 1, 1⟩,
    customerAge := 25, customerGender := "Female", city := "Taipei",
    region := "North", courseTypeName := "Yoga", amount := 100 }

/-- A filter combination with every dimension set. -/
def wInp : FilterIn :=
  { startDate := some ⟨2024, 1, 1⟩, endDate := some ⟨2024, 12, 31⟩,
    ageRange := some (20, 30), courseTypes := ["Yoga"],
    cities := ["Taipei"], genders := ["Female"] }

/-- A one-row teacher dataframe used to instantiate the theorems. -/
def wTRow : TPRow :=
  { teacherId := 1, teacherName := "Alice Lee", studentId := 7,
    studentGender := "Female", studentAge := 25, learningCity := "Taipei",
    learningArea := "North", courseDate := ⟨2024, 1, 1⟩,
    courseTypeName := "Yoga" }

/-- Witness for C1 at a concrete dataframe and a fully applied filter
combination. -/
theorem filter_predicates_narrow_monotonically_witness :
    (afterGenders wInp [wRow]).length ≤ (afterCities wInp [wRow]).length
    ∧ (∀ r ∈ afterGenders wInp [wRow], r.customerGender ∈ wInp.genders)
    ∧ (∀ r ∈ tpAfterGenders wInp [wTRow], r.studentGender ∈ wInp.genders) :=
  ⟨(filter_predicates_narrow_monotonically wInp [wRow] [wTRow]).1.2.2.2.2,
   (filter_predicates_narrow_monotonically wInp [wRow] [wTRow]).2.1.2.2.2.2
     (by decide),
   (filter_predicates_narrow_monotonically wInp [wRow] [wTRow]).2.2.2.2.2.2
     (by decide)⟩

/-- A gender selection that no row of `[wRow]` matches, producing an
empty filtered result. -/
def emptyingInp : FilterIn :=
  { startDate := none, endDate := none, ageRange := none,
    courseTypes := [], cities := [], genders := ["Male"] }

/-- C2 counterexample: with filters that yield an empty result set, the
monthly-revenue callback returns its ordinary figure with *no* in-chart
no-data annotation, so not every chart callback shows one. -/
theorem empty_result_no_annotation_cex :
    applyBaseFilters emptyingInp [wRow] = []
    ∧ noDataText ∉ (updateMonthlyRevenueFig emptyingInp [wRow]).annotations := by
  constructor
  · decide
  · simp [updateMonthlyRevenueFig]

/-- C2 amended: on an empty filtered result only the demographics
callbacks add the in-chart no-data annotation (and add none otherwise);
the monthly-revenue, booking-heatmap, teacher class-trend and
teacher-student heatmap callbacks never add an annotation, returning
their ordinary figure built from the empty data; no callback raises
(all are total functions). -/
theorem empty_result_annotation_demographics_only
    (inp : FilterIn) (base : List BaseRow) (da : List DARow)
    (df : List BaseRow) (tdf : List TPRow) :
    (demoFiltered inp base da = [] →
      (updateDemographicsFig inp base da).annotations = [noDataText])
    ∧ (demoFiltered inp base da ≠ [] →
      (updateDemographicsFig inp base da).annotations = [])
    ∧ (updateMonthlyRevenueFig inp df).annotations = []
    ∧ (updateBookingHeatmapFig inp df).annotations = []
    ∧ (updateTeacherTrendFig inp tdf).annotations = []
    ∧ (updateTeacherHeatmapFig inp tdf).annotations = [] := by
  refine ⟨?_, ?_, rfl, rfl, rfl, rfl⟩
  · intro h
    simp [updateDemographicsFig, h]
  · intro h
    simp [updateDemographicsFig, List.length_eq_zero.not.mpr h]

/-- A `DA_data` row for student 7 matching `wRow`. -/
def wDARow : DARow :=
  { studentID := 7, age := 25, gender := "Female", city := "Taipei",
    learningArea := "North", courseTypeName := some "Yoga" }

/-- Witness for the amended C2: with no surviving rows the demographics
figure carries the annotation, and with a surviving row it does not. -/
theorem empty_result_annotation_demographics_only_witness :
    (updateDemographicsFig ⟨none, none, some (90, 99), [], [], []⟩ [wRow]
        [wDARow]).annotations = [noDataText]
    ∧ (updateDemographicsFig ⟨none, none, none, [], [], []⟩ [wRow]
        [wDARow]).annotations = []
    ∧ (updateTeacherTrendFig ⟨none, none, some (90, 99), [], [], []⟩
        [wTRow]).annotations = []
    ∧ (updateTeacherHeatmapFig ⟨none, none, some (90, 99), [], [], []⟩
        [wTRow]).annotations = [] :=
  ⟨(empty_result_annotation_demographics_only ⟨none, none, some (90, 99), [], [], []⟩
      [wRow] [wDARow] [] []).1 (by decide),
   (empty_result_annotation_demographics_only ⟨none, none, none, [], [], []⟩
      [wRow] [wDARow] [] []).2.1 (by decide),
   (empty_result_annotation_demographics_only ⟨none, none, some (90, 99), [], [], []⟩
      [wRow] [wDARow] [] [wTRow]).2.2.2.2.1,
   (empty_result_annotation_demographics_only ⟨none, none, some (90, 99), [], [], []⟩
      [wRow] [wDARow] [] [wTRow]).2.2.2.2.2⟩


theorem tpAfterAge_subset (inp : FilterIn) (df : List TPRow) :
    tpAfterAge inp df ⊆ tpAfterDate inp df := by
  unfold tpAfterAge
  rcases inp.ageRange with _ | ⟨lo, hi⟩
  · exact fun r h => h
  · exact fun r h => List.mem_of_mem_filter h

theorem tpAfterCities_subset (inp : FilterIn) (df : List TPRow) :
    tpAfterCities inp df ⊆ tpAfterAge inp df := by
  unfold tpAfterCities
  split
  · exact fun r h => h
  · exact fun r h => List.mem_of_mem_filter h

theorem tpAfterGenders_subset (inp : FilterIn) (df : List TPRow) :
    tpAfterGenders inp df ⊆ tpAfterCities inp df := by
  unfold tpAfterGenders
  split
  · exact fun r h => h
  · exact fun r h => List.mem_of_mem_filter h

/-- A course-type selection not matching `wTRow`'s ground-truth course
type. -/
def c3Inp : FilterIn :=
  { startDate := none, endDate := none, ageRange := none,
    courseTypes := ["Dance"], cities := [], genders := [] }

/-- C3 counterexample: with the non-empty course-type selection
`["Dance"]`, the teacher class-trend result still contains a row whose
course type is `"Yoga"` — the callback receives `course_types` but never
filters by it. -/
theorem teacher_trend_course_type_not_applied_cex :
    ¬ (∀ r ∈ teacherTrendFiltered c3Inp [wTRow],
          r.courseTypeName ∈ c3Inp.courseTypes) := by
  intro h
  have hmem : wTRow ∈ teacherTrendFiltered c3Inp [wTRow] := by decide
  have := h wTRow hmem
  simp [wTRow, c3Inp] at this

/-- C3 amended: the teacher class-trend callback applies the date, age,
city and gender dimensions (surviving rows satisfy each applied
predicate), but its result is invariant under the course-type selection;
the shared base pipeline of the other view callbacks does apply the
course-type selection. -/
theorem teacher_trend_ignores_course_type
    (sd ed : Option Date) (ar : Option (Int × Int))
    (ct ct2 ci ge : List String) (tdf : List TPRow)
    (inp : FilterIn) (df : List BaseRow) :
    teacherTrendFiltered ⟨sd, ed, ar, ct, ci, ge⟩ tdf
      = teacherTrendFiltered ⟨sd, ed, ar, ct2, ci, ge⟩ tdf
    ∧ (∀ s e, sd = some s → ed = some e →
        ∀ r ∈ teacherTrendFiltered ⟨sd, ed, ar, ct, ci, ge⟩ tdf,
          datePred s e r.courseDate)
    ∧ (∀ lo hi, ar = some (lo, hi) →
        ∀ r ∈ teacherTrendFiltered ⟨sd, ed, ar, ct, ci, ge⟩ tdf,
          lo ≤ r.studentAge ∧ r.studentAge ≤ hi)
    ∧ (ci ≠ [] →
        ∀ r ∈ teacherTrendFiltered ⟨sd, ed, ar, ct, ci, ge⟩ tdf,
          r.learningCity ∈ ci)
    ∧ (ge ≠ [] →
        ∀ r ∈ teacherTrendFiltered ⟨sd, ed, ar, ct, ci, ge⟩ tdf,
          r.studentGender ∈ ge)
    ∧ (inp.courseTypes ≠ [] →
        ∀ r ∈ afterCourse inp df, r.courseTypeName ∈ inp.courseTypes) := by
  refine ⟨rfl, ?_, ?_, ?_, ?_, ?_⟩
  · intro s e hs he r hr
    exact tpAfterDate_sound ⟨sd, ed, ar, ct, ci, ge⟩ tdf s e hs he r
      (tpAfterAge_subset _ tdf (tpAfterCities_subset _ tdf (tpAfterGenders_subset _ tdf hr)))
  · intro lo hi har r hr
    exact tpAfterAge_sound ⟨sd, ed, ar, ct, ci, ge⟩ tdf lo hi har r
      (tpAfterCities_subset _ tdf (tpAfterGenders_subset _ tdf hr))
  · intro hci r hr
    exact tpAfterCities_sound ⟨sd, ed, ar, ct, ci, ge⟩ tdf hci r
      (tpAfterGenders_subset _ tdf hr)
  · exact fun hge => tpAfterGenders_sound ⟨sd, ed, ar, ct, ci, ge⟩ tdf hge
  · exact fun h => afterCourse_sound inp df h

/-- Witness for the amended C3 at a concrete dataframe: swapping the
course-type selection leaves the teacher-trend result unchanged, while
the applied gender dimension is respected. -/
theorem teacher_trend_ignores_course_type_witness :
    teacherTrendFiltered ⟨none, none, none, ["Dance"], [], ["Female"]⟩ [wTRow]
      = teacherTrendFiltered ⟨none, none, none, [], [], ["Female"]⟩ [wTRow]
    ∧ (∀ r ∈ teacherTrendFiltered ⟨none, none, none, ["Dance"], [], ["Female"]⟩ [wTRow],
        r.studentGender ∈ (["Female"] : List String)) :=
  ⟨(teacher_trend_ignores_course_type none none none ["Dance"] [] [] ["Female"]
      [wTRow] wInp []).1,
   (teacher_trend_ignores_course_type none none none ["Dance"] [] [] ["Female"]
      [wTRow] wInp []).2.2.2.2.1 (by decide)⟩

section HeatmapLemmas

theorem dayIdx_lt (d : Date) : dayIdx d < 7 := by
  unfold dayIdx
  exact Nat.mod_lt _ (by norm_num)

theorem dayName_mem (d : Date) : dayName d ∈ daysOrder := by
  unfold dayName
  rw [List.getD_eq_getElem daysOrder "Monday"
    (by simpa [daysOrder] using dayIdx_lt d)]
  exact List.getElem_mem _

theorem mem_daysOf (df : List BaseRow) (d : String) :
    d ∈ daysOf df ↔ ∃ r ∈ df, dayName r.orderDate = d := by
  unfold daysOf
  rw [List.mem_dedup, List.mem_map]

theorem mem_monthsOf (df : List BaseRow) (k : Nat) :
    k ∈ monthsOf df ↔ ∃ r ∈ df, monthKey r.orderDate = k := by
  unfold monthsOf
  rw [List.mem_dedup, List.mem_map]

theorem mem_heatKeys (df : List BaseRow) (d : String) (k : Nat) :
    (d, k) ∈ heatKeys df ↔
      ∃ r ∈ df, dayName r.orderDate = d ∧ monthKey r.orderDate = k := by
  unfold heatKeys
  rw [List.mem_dedup, List.mem_map]
  constructor
  · rintro ⟨r, hr, h⟩
    exact ⟨r, hr, congrArg Prod.fst h, congrArg Prod.snd h⟩
  · rintro ⟨r, hr, h1, h2⟩
    exact ⟨r, hr, by rw [h1, h2]⟩

theorem mem_mergedBlock (df : List BaseRow) (d : String)
    (e : String × Option Nat × ℚ) :
    e ∈ mergedBlock df d ↔
      ((heatGroups df).filter (fun x => x.1.1 = d) = [] ∧ e = (d, none, 0))
      ∨ (∃ x ∈ heatGroups df, x.1.1 = d ∧ e = (x.1.1, some x.1.2, x.2)) := by
  unfold mergedBlock
  split
  case isTrue h =>
    rw [List.isEmpty_iff] at h
    simp only [List.mem_singleton]
    constructor
    · intro he
      exact Or.inl ⟨h, he⟩
    · rintro (⟨_, he⟩ | ⟨x, hx, hxd, rfl⟩)
      · exact he
      · exfalso
        have : x ∈ (heatGroups df).filter (fun y => y.1.1 = d) :=
          List.mem_filter.mpr ⟨hx, by simpa using hxd⟩
        rw [h] at this
        exact List.not_mem_nil x this
  case isFalse h =>
    rw [List.isEmpty_iff] at h
    rw [List.mem_map]
    constructor
    · rintro ⟨x, hx, rfl⟩
      have hx2 := List.mem_filter.mp hx
      exact Or.inr ⟨x, hx2.1, by simpa using hx2.2, rfl⟩
    · rintro (⟨hfil, _⟩ | ⟨x, hx, hxd, rfl⟩)
      · exact absurd hfil h
      · exact ⟨x, List.mem_filter.mpr ⟨hx, by simpa using hxd⟩, rfl⟩

theorem mem_mergedHeat (df : List BaseRow) (e : String × Option Nat × ℚ) :
    e ∈ mergedHeat df ↔
      ∃ d ∈ daysOrder,
        (((heatGroups df).filter (fun x => x.1.1 = d) = [] ∧ e = (d, none, 0))
          ∨ (∃ x ∈ heatGroups df, x.1.1 = d ∧ e = (x.1.1, some x.1.2, x.2))) := by
  unfold mergedHeat
  rw [List.mem_flatMap]
  constructor
  · rintro ⟨d, hd, he⟩
    exact ⟨d, hd, (mem_mergedBlock df d e).mp he⟩
  · rintro ⟨d, hd, h⟩
    exact ⟨d, hd, (mem_mergedBlock df d e).mpr h⟩

theorem heatGroups_fst_day (df : List BaseRow) (x : (String × Nat) × ℚ)
    (hx : x ∈ heatGroups df) : ∃ r ∈ df, dayName r.orderDate = x.1.1 ∧
      monthKey r.orderDate = x.1.2 := by
  unfold heatGroups at hx
  rw [List.mem_map] at hx
  obtain ⟨k, hk, rfl⟩ := hx
  obtain ⟨r, hr, h1, h2⟩ := (mem_heatKeys df k.1 k.2).mp hk
  exact ⟨r, hr, h1, h2⟩

theorem filter_day_eq_nil_iff (df : List BaseRow) (d : String) :
    (heatGroups df).filter (fun x => x.1.1 = d) = [] ↔ d ∉ daysOf df := by
  constructor
  · intro h hd
    obtain ⟨r, hr, hrd⟩ := (mem_daysOf df d).mp hd
    have hkey : (d, monthKey r.orderDate) ∈ heatKeys df :=
      (mem_heatKeys df d (monthKey r.orderDate)).mpr ⟨r, hr, hrd, rfl⟩
    have hgrp : ((d, monthKey r.orderDate),
        ((df.filter (fun r2 => dayName r2.orderDate = d ∧
            monthKey r2.orderDate = monthKey r.orderDate)).map (·.amount)).sum)
          ∈ heatGroups df := by
      unfold heatGroups
      exact List.mem_map.mpr ⟨(d, monthKey r.orderDate), hkey, rfl⟩
    have : ((d, monthKey r.orderDate),
        ((df.filter (fun r2 => dayName r2.orderDate = d ∧
            monthKey r2.orderDate = monthKey r.orderDate)).map (·.amount)).sum)
          ∈ (heatGroups df).filter (fun x => x.1.1 = d) :=
      List.mem_filter.mpr ⟨hgrp, by simp⟩
    rw [h] at this
    exact List.not_mem_nil _ this
  · intro hd
    rw [List.filter_eq_nil_iff]
    intro x hx
    simp only [decide_eq_true_eq]
    intro hxd
    obtain ⟨r, hr, hrd, _⟩ := heatGroups_fst_day df x hx
    exact hd (hxd ▸ ((mem_daysOf df x.1.1).mpr ⟨r, hr, hrd⟩))

end HeatmapLemmas

theorem heatKeys_to_group (df : List BaseRow) (k : String × Nat)
    (hk : k ∈ heatKeys df) : ∃ x ∈ heatGroups df, x.1 = k := by
  unfold heatGroups
  exact ⟨_, List.mem_map.mpr ⟨k, hk, rfl⟩, rfl⟩

theorem bookingPivotRowLabels_iff (df : List BaseRow) (d : String) :
    d ∈ bookingPivotRowLabels df ↔ d ∈ daysOrder := by
  unfold bookingPivotRowLabels
  rw [List.mem_dedup, List.mem_map]
  constructor
  · rintro ⟨e, he, rfl⟩
    obtain ⟨d0, hd0, h⟩ := (mem_mergedHeat df e).mp he
    rcases h with ⟨_, rfl⟩ | ⟨x, _, hxd, rfl⟩
    · exact hd0
    · simpa [hxd] using hd0
  · intro hd
    by_cases hf : (heatGroups df).filter (fun x => x.1.1 = d) = []
    · exact ⟨(d, none, 0), (mem_mergedHeat df _).mpr ⟨d, hd, Or.inl ⟨hf, rfl⟩⟩, rfl⟩
    · obtain ⟨x, hx⟩ := List.exists_mem_of_ne_nil _ hf
      have hx2 := List.mem_filter.mp hx
      have hxd : x.1.1 = d := by simpa using hx2.2
      exact ⟨(x.1.1, some x.1.2, x.2),
        (mem_mergedHeat df _).mpr ⟨d, hd, Or.inr ⟨x, hx2.1, hxd, rfl⟩⟩, hxd⟩

theorem bookingPivotColLabels_some_iff (df : List BaseRow) (k : Nat) :
    some k ∈ bookingPivotColLabels df ↔ k ∈ monthsOf df := by
  unfold bookingPivotColLabels
  rw [List.mem_dedup, List.mem_map]
  constructor
  · rintro ⟨e, he, hk⟩
    obtain ⟨d0, hd0, h⟩ := (mem_mergedHeat df e).mp he
    rcases h with ⟨_, rfl⟩ | ⟨x, hx, _, rfl⟩
    · simp at hk
    · obtain ⟨r, hr, _, hm⟩ := heatGroups_fst_day df x hx
      simp only at hk
      have hxk : x.1.2 = k := Option.some_injective _ hk
      exact (mem_monthsOf df k).mpr ⟨r, hr, by rw [hm, hxk]⟩
  · intro hk
    obtain ⟨r, hr, rfl⟩ := (mem_monthsOf df k).mp hk
    have hkey : (dayName r.orderDate, monthKey r.orderDate) ∈ heatKeys df :=
      (mem_heatKeys df _ _).mpr ⟨r, hr, rfl, rfl⟩
    obtain ⟨x, hx, hxk⟩ := heatKeys_to_group df _ hkey
    refine ⟨(x.1.1, some x.1.2, x.2),
      (mem_mergedHeat df _).mpr ⟨x.1.1, ?_, Or.inr ⟨x, hx, rfl, rfl⟩⟩, ?_⟩
    · rw [hxk]
      exact dayName_mem r.orderDate
    · simp only
      rw [hxk]

theorem bookingPivotColLabels_none_iff (df : List BaseRow) :
    none ∈ bookingPivotColLabels df ↔ ∃ d ∈ daysOrder, d ∉ daysOf df := by
  unfold bookingPivotColLabels
  rw [List.mem_dedup, List.mem_map]
  constructor
  · rintro ⟨e, he, hk⟩
    obtain ⟨d0, hd0, h⟩ := (mem_mergedHeat df e).mp he
    rcases h with ⟨hfil, rfl⟩ | ⟨x, _, _, rfl⟩
    · exact ⟨d0, hd0, (filter_day_eq_nil_iff df d0).mp hfil⟩
    · simp at hk
  · rintro ⟨d, hd, hnd⟩
    exact ⟨(d, none, 0),
      (mem_mergedHeat df _).mpr
        ⟨d, hd, Or.inl ⟨(filter_day_eq_nil_iff df d).mpr hnd, rfl⟩⟩, rfl⟩

/-- An all-off filter combination. -/
def c4Inp : FilterIn :=
  { startDate := none, endDate := none, ageRange := none,
    courseTypes := [], cities := [], genders := [] }

/-- C4 counterexample: with a single transaction (a Monday), the pivot's
column labels contain the `fillna` value 0 (embedded `none`) produced by
the six day rows with no data, which is not a `YYYY-MM` month of the
filtered data — so the columns are not exactly the occurring months. -/
theorem booking_pivot_extra_zero_column_cex :
    ¬ (∀ l ∈ bookingPivotColLabels (applyBaseFilters c4Inp [wRow]),
          ∃ k ∈ monthsOf (applyBaseFilters c4Inp [wRow]), l = some k) := by
  intro h
  have hnone : (none : Option Nat) ∈
      bookingPivotColLabels (applyBaseFilters c4Inp [wRow]) := by decide
  obtain ⟨k, _, hk⟩ := h none hnone
  exact Option.noConfusion hk

/-- C4 amended: the booking-heatmap pivot's row labels are exactly the
seven day names Monday..Sunday in that order (after
`reindex(index=days_order)`; already before the reindex the index holds
exactly the seven days); a month column labelled `k` is present iff `k`
occurs in the filtered data; and one extra column labelled with the
`fillna` value 0 is present iff at least one weekday has no row in the
filtered data. -/
theorem booking_pivot_labels (inp : FilterIn) (df : List BaseRow) :
    ((updateBookingHeatmapFig inp df).rowLabels = daysOrder
      ∧ (∀ d, d ∈ bookingPivotRowLabels (applyBaseFilters inp df) ↔ d ∈ daysOrder)
      ∧ (bookingPivotRowLabels (applyBaseFilters inp df)).Nodup)
    ∧ (∀ k, some k ∈ bookingPivotColLabels (applyBaseFilters inp df) ↔
        k ∈ monthsOf (applyBaseFilters inp df))
    ∧ ((none ∈ bookingPivotColLabels (applyBaseFilters inp df)) ↔
        ∃ d ∈ daysOrder, d ∉ daysOf (applyBaseFilters inp df)) :=
  ⟨⟨rfl, fun d => bookingPivotRowLabels_iff _ d, List.nodup_dedup _⟩,
    fun k => bookingPivotColLabels_some_iff _ k,
    bookingPivotColLabels_none_iff _⟩

/-- Witness for the amended C4 at the concrete one-row dataframe: the
January 2024 column is present because the month occurs. -/
theorem booking_pivot_labels_witness :
    (updateBookingHeatmapFig c4Inp [wRow]).rowLabels = daysOrder
    ∧ some 202401 ∈ bookingPivotColLabels (applyBaseFilters c4Inp [wRow]) :=
  ⟨(booking_pivot_labels c4Inp [wRow]).1.1,
   ((booking_pivot_labels c4Inp [wRow]).2.1 202401).mpr (by decide)⟩

/-- C5: the missing-table validation of `load_data_DA` raises exactly
when one of the four required tables is absent from the database, the
raised message names the missing tables, and when all four are present
the check raises nothing. -/
theorem load_data_DA_missing_table_check (dbTables : List String) :
    ((∃ t ∈ requiredTables, t ∉ dbTables) →
      missingTables dbTables ≠ []
      ∧ loadDataDACheck dbTables
          = Except.error (missingTablesMsg (missingTables dbTables))
      ∧ (∀ t, t ∈ missingTables dbTables ↔ t ∈ requiredTables ∧ t ∉ dbTables))
    ∧ ((∀ t ∈ requiredTables, t ∈ dbTables) →
      loadDataDACheck dbTables = Except.ok ()) := by
  constructor
  · rintro ⟨t, ht, htdb⟩
    have hmem : t ∈ missingTables dbTables :=
      List.mem_filter.mpr ⟨ht, by simpa using htdb⟩
    have hne : missingTables dbTables ≠ [] := by
      intro h
      rw [h] at hmem
      exact List.not_mem_nil t hmem
    refine ⟨hne, ?_, ?_⟩
    · unfold loadDataDACheck
      rw [if_neg hne]
    · intro u
      unfold missingTables
      rw [List.mem_filter]
      simp
  · intro h
    unfold loadDataDACheck
    rw [if_pos]
    unfold missingTables
    rw [List.filter_eq_nil_iff]
    intro t ht
    simpa using h t ht

/-- Witness for C5: with `course_student` absent the check raises the
message naming it; with all four tables present it passes. -/
theorem load_data_DA_missing_table_check_witness :
    loadDataDACheck ["student_basic", "student_learning_area",
        "student_learning_type"]
      = Except.error (missingTablesMsg (missingTables
          ["student_basic", "student_learning_area", "student_learning_type"]))
    ∧ loadDataDACheck ["student_basic", "student_learning_area",
        "student_learning_type", "course_student"]
      = Except.ok () :=
  ⟨((load_data_DA_missing_table_check ["student_basic", "student_learning_area",
      "student_learning_type"]).1 (by decide)).2.1,
   (load_data_DA_missing_table_check ["student_basic", "student_learning_area",
      "student_learning_type", "course_student"]).2 (by decide)⟩

/-- C6 counterexample: `load_data_TP` suppresses a query failure — it
catches the exception and returns an empty dataframe, indistinguishable
from a successful empty load, instead of raising. -/
theorem load_data_TP_suppresses_failure_cex :
    loadDataTP (Except.error "database is locked") = []
    ∧ loadDataTP (Except.ok ([] : List TPRow)) = [] :=
  ⟨rfl, rfl⟩

/-- C6 amended: in the module-level loading, `load_data_BT`,
`load_data_MR` (via `load_transaction_data`) and `load_data_DA` let
every failure propagate as a fatal exception — `load_data_DA` raises on
missing tables, on a query failure, and on an empty query result — but
`load_data_TP` catches any failure and returns an empty dataframe (the
module level then merely prints a warning). -/
theorem loader_error_propagation (e : String) (rows : List BaseRow)
    (dbTables : List String) (q : Except String (List DARow)) :
    loadDataBT (Except.error e) = Except.error e
    ∧ loadDataMR (Except.error e) = Except.error e
    ∧ loadDataBT (Except.ok rows) = Except.ok rows
    ∧ (loadDataDACheck dbTables = Except.ok () →
        loadDataDA dbTables (Except.error e) = Except.error e)
    ∧ (missingTables dbTables ≠ [] →
        loadDataDA dbTables q
          = Except.error (missingTablesMsg (missingTables dbTables)))
    ∧ (loadDataDACheck dbTables = Except.ok () →
        loadDataDA dbTables (Except.ok ([] : List DARow))
          = Except.error "No data was retrieved from the database")
    ∧ (∀ msg, loadDataTP (Except.error msg) = []) := by
  refine ⟨rfl, rfl, rfl, ?_, ?_, ?_, fun _ => rfl⟩
  · intro h
    unfold loadDataDA
    rw [h]
  · intro h
    unfold loadDataDA loadDataDACheck
    rw [if_neg h]
  · intro h
    unfold loadDataDA
    rw [h]
    rfl

/-- Witness for the amended C6: with all four tables present, a query
failure propagates out of `load_data_DA`, an empty result raises, and
the same failure fed to `load_data_TP` is swallowed into an empty
dataframe. -/
theorem loader_error_propagation_witness :
    loadDataDA ["student_basic", "student_learning_area",
        "student_learning_type", "course_student"]
      (Except.error "no such table: transaction_data")
      = Except.error "no such table: transaction_data"
    ∧ loadDataDA ["student_basic", "student_learning_area",
        "student_learning_type", "course_student"] (Except.ok [])
      = Except.error "No data was retrieved from the database"
    ∧ loadDataTP (Except.error "no such table: transaction_data") = [] :=
  ⟨(loader_error_propagation "no such table: transaction_data" []
      ["student_basic", "student_learning_area", "student_learning_type",
        "course_student"] (Except.ok [])).2.2.2.1 (by rfl),
   (loader_error_propagation "no such table: transaction_data" []
      ["student_basic", "student_learning_area", "student_learning_type",
        "course_student"] (Except.ok [])).2.2.2.2.2.1 (by rfl),
   (loader_error_propagation "no such table: transaction_data" []
      ["student_basic", "student_learning_area", "student_learning_type",
        "course_student"] (Except.ok [])).2.2.2.2.2.2
     "no such table: transaction_data"⟩

/-- C7: no chart callback mutates the in-memory snapshot: each callback,
run as a state transformer over the module-level dataframes, returns the
snapshot unchanged (every callback body starts from a `.copy()` and all
its assignments target that copy). -/
theorem callbacks_preserve_snapshot (env : Env) (inp : FilterIn) :
    (updateMonthlyRevenueStep env inp).2 = env
    ∧ (updateBookingHeatmapStep env inp).2 = env
    ∧ (updateDemographicsStep env inp).2 = env
    ∧ (updateTeacherTrendStep env inp).2 = env :=
  ⟨rfl, rfl, rfl, rfl⟩

section MonthlyRevenueLemmas

theorem monthlyRevenue_map_fst (df : List BaseRow) :
    (monthlyRevenue df).map Prod.fst = monthKeys df := by
  unfold monthlyRevenue
  rw [List.map_map]
  simp [Function.comp_def]

theorem monthKeys_sorted_lt (df : List BaseRow) :
    (monthKeys df).Sorted (· < ·) := by
  unfold monthKeys
  refine List.Sorted.lt_of_le (List.sorted_insertionSort _ _) ?_
  exact ((List.perm_insertionSort _ _).nodup_iff).mpr (List.nodup_dedup _)

theorem pctChange100_head (l : List ℚ) (hl : l ≠ []) :
    (pctChange100 l).head? = some none := by
  obtain ⟨v, rest, rfl⟩ := List.exists_cons_of_ne_nil hl
  rfl

theorem pctChange100_get_succ (l : List ℚ) (i : Nat) (prev cur : ℚ)
    (h1 : l[i]? = some prev) (h2 : l[i + 1]? = some cur) (hprev : prev ≠ 0) :
    (pctChange100 l)[i + 1]? = some (some ((cur - prev) / prev * 100)) := by
  unfold pctChange100
  rw [List.getElem?_map, List.getElem?_enum, h2]
  simp only [Option.map_some']
  rw [if_neg (Nat.succ_ne_zero i)]
  rw [Nat.add_sub_cancel]
  rw [List.getD_eq_getElem?_getD, h1]
  simp only [Option.getD_some]
  rw [div_sub_one hprev]

end MonthlyRevenueLemmas

/-- C8: in the monthly-revenue computation, revenue per month is the sum
of `Amount` over the transactions of each `YYYY-MM` month key, the keys
are sorted ascending with exactly the months occurring in the data, the
first month's growth rate is NaN (`none`), and every later month's
growth rate is (current − previous) / previous × 100. -/
theorem monthly_revenue_growth_correct (df : List BaseRow) :
    ((monthlyRevenue df).map Prod.fst).Sorted (· < ·)
    ∧ (∀ k, k ∈ (monthlyRevenue df).map Prod.fst ↔
        ∃ r ∈ df, monthKey r.orderDate = k)
    ∧ (∀ p ∈ monthlyRevenue df,
        p.2 = ((df.filter (fun r => monthKey r.orderDate = p.1)).map
          (·.amount)).sum)
    ∧ (monthlyRevenue df ≠ [] →
        (pctChange100 ((monthlyRevenue df).map Prod.snd)).head? = some none)
    ∧ (∀ i prev cur, ((monthlyRevenue df).map Prod.snd)[i]? = some prev →
        ((monthlyRevenue df).map Prod.snd)[i + 1]? = some cur → prev ≠ 0 →
        (pctChange100 ((monthlyRevenue df).map Prod.snd))[i + 1]?
          = some (some ((cur - prev) / prev * 100))) := by
  refine ⟨?_, ?_, ?_, ?_, ?_⟩
  · rw [monthlyRevenue_map_fst]
    exact monthKeys_sorted_lt df
  · intro k
    rw [monthlyRevenue_map_fst]
    unfold monthKeys
    rw [List.mem_insertionSort, List.mem_dedup, List.mem_map]
  · intro p hp
    obtain ⟨k, _, rfl⟩ := List.mem_map.mp hp
    rfl
  · intro h
    exact pctChange100_head _ (by simpa using h)
  · exact fun i prev cur h1 h2 hprev =>
      pctChange100_get_succ _ i prev cur h1 h2 hprev

/-- A second transaction one month later, for the growth-rate witness. -/
def wRow2 : BaseRow :=
  { transactionId := 2, studentId := 8, orderDate := ⟨2024, 2, 5⟩,
    customerAge := 30, customerGender := "Male", city := "Taichung",
    region := "Central", courseTypeName := "Dance", amount := 15 }

/-- A copy of `wRow` with amount 10, for the growth-rate witness. -/
def wRow1 : BaseRow :=
  { transactionId := 1, studentId := 7, orderDate := ⟨2024, 1, 1⟩,
    customerAge := 25, customerGender := "Female", city := "Taipei",
    region := "North", courseTypeName := "Yoga", amount := 10 }

/-- Witness for C8 on a two-month dataframe: January revenue 10,
February revenue 15, growth rate (15 − 10) / 10 × 100 = 50, first entry
NaN. -/
theorem monthly_revenue_growth_correct_witness :
    (pctChange100 ((monthlyRevenue [wRow1, wRow2]).map Prod.snd)).head?
      = some none
    ∧ (pctChange100 ((monthlyRevenue [wRow1, wRow2]).map Prod.snd))[0 + 1]?
      = some (some ((15 - 10) / 10 * 100)) := by
  have hsnd : (monthlyRevenue [wRow1, wRow2]).map Prod.snd = [10, 15] := by
    simp [monthlyRevenue, monthKeys, monthRevenueAt, monthKey, wRow1, wRow2,
      List.dedup, List.pwFilter, List.insertionSort, List.orderedInsert]
  refine ⟨(monthly_revenue_growth_correct [wRow1, wRow2]).2.2.2.1 ?_,
    (monthly_revenue_growth_correct [wRow1, wRow2]).2.2.2.2 0 10 15 ?_ ?_
      (by norm_num)⟩
  · intro h
    rw [h] at hsnd
    simp at hsnd
  · rw [hsnd]
    rfl
  · rw [hsnd]
    rfl

section TopTeacherLemmas

theorem teacherTotals_length (f : List TPRow) :
    (teacherTotals f).length = (teacherNames f).length := by
  unfold teacherTotals
  rw [List.length_insertionSort, List.length_map]

theorem teacherTotals_sorted (f : List TPRow) :
    (teacherTotals f).Sorted countGE :=
  List.sorted_insertionSort countGE _

theorem mem_teacherTotals (f : List TPRow) (p : String × Nat) :
    p ∈ teacherTotals f ↔
      ∃ n ∈ teacherNames f, (n, teacherCount f n) = p := by
  unfold teacherTotals
  rw [List.mem_insertionSort, List.mem_map]

theorem mem_teacherNames (f : List TPRow) (n : String) :
    n ∈ teacherNames f ↔ ∃ r ∈ f, r.teacherName = n := by
  unfold teacherNames
  rw [List.mem_dedup, List.mem_map]

end TopTeacherLemmas

/-- C9: the teacher class-trend callback keeps every teacher when the
filtered data has at most 10 distinct teacher names (the number of rows
of `teacher_totals`), and only with more than 10 distinct teachers does
it restrict the data to the `head(5)` of the count-sorted totals: then
exactly 5 teachers are kept, each kept row's teacher is one of them,
each of them still occurs, and every kept teacher's class count is at
least every dropped teacher's class count. -/
theorem teacher_trend_top5 (inp : FilterIn) (df : List TPRow) :
    ((teacherTotals (teacherTrendFiltered inp df)).length
        = (teacherNames (teacherTrendFiltered inp df)).length)
    ∧ ((teacherTotals (teacherTrendFiltered inp df)).length ≤ 10 →
        updateTeacherTrendRows inp df = teacherTrendFiltered inp df)
    ∧ (10 < (teacherTotals (teacherTrendFiltered inp df)).length →
        ((teacherTotals (teacherTrendFiltered inp df)).take 5).length = 5
        ∧ (∀ r ∈ updateTeacherTrendRows inp df,
            r.teacherName
              ∈ ((teacherTotals (teacherTrendFiltered inp df)).take 5).map
                  Prod.fst)
        ∧ (∀ p ∈ (teacherTotals (teacherTrendFiltered inp df)).take 5,
            ∃ r ∈ updateTeacherTrendRows inp df, r.teacherName = p.1)
        ∧ (∀ p ∈ (teacherTotals (teacherTrendFiltered inp df)).take 5,
            ∀ q ∈ (teacherTotals (teacherTrendFiltered inp df)).drop 5,
              q.2 ≤ p.2)) := by
  refine ⟨teacherTotals_length _, ?_, ?_⟩
  · intro h
    unfold updateTeacherTrendRows restrictTopTeachers
    rw [if_neg (by omega)]
  · intro h
    refine ⟨?_, ?_, ?_, ?_⟩
    · rw [List.length_take]
      omega
    · intro r hr
      unfold updateTeacherTrendRows restrictTopTeachers at hr
      rw [if_pos h] at hr
      have := (List.mem_filter.mp hr).2
      simpa using this
    · intro p hp
      have hptot : p ∈ teacherTotals (teacherTrendFiltered inp df) :=
        List.take_subset 5 _ hp
      obtain ⟨n, hn, hnp⟩ := (mem_teacherTotals _ p).mp hptot
      obtain ⟨r, hr, hrn⟩ := (mem_teacherNames _ n).mp hn
      refine ⟨r, ?_, by rw [hrn, ← hnp]⟩
      unfold updateTeacherTrendRows restrictTopTeachers
      rw [if_pos h]
      refine List.mem_filter.mpr ⟨hr, ?_⟩
      simp only [decide_eq_true_eq]
      refine List.mem_map.mpr ⟨p, hp, ?_⟩
      rw [hrn, ← hnp]
    · intro p hp q hq
      have hpw : (teacherTotals (teacherTrendFiltered inp df)).Pairwise countGE :=
        teacherTotals_sorted _
      rw [← List.take_append_drop 5 (teacherTotals (teacherTrendFiltered inp df))]
        at hpw
      exact (List.pairwise_append.mp hpw).2.2 p hp q hq

/-- Eleven one-class teacher rows, to cross the 10-teacher threshold. -/
def wT (i : Nat) (n : String) : TPRow :=
  { teacherId := i, teacherName := n, studentId := i,
    studentGender := "Female", studentAge := 25, learningCity := "Taipei",
    learningArea := "North", courseDate := ⟨2024, 1, 1⟩,
    courseTypeName := "Yoga" }

/-- An 11-teacher dataframe. -/
def w11 : List TPRow :=
  [wT 1 "T1", wT 2 "T2", wT 3 "T3", wT 4 "T4", wT 5 "T5", wT 6 "T6",
   wT 7 "T7", wT 8 "T8", wT 9 "T9", wT 10 "T10", wT 11 "T11"]

/-- Witness for C9: with 11 distinct teachers exactly 5 survive the
restriction; with a single teacher the data passes through unchanged. -/
theorem teacher_trend_top5_witness :
    ((teacherTotals (teacherTrendFiltered c4Inp w11)).take 5).length = 5
    ∧ updateTeacherTrendRows c4Inp [wTRow] = teacherTrendFiltered c4Inp [wTRow] :=
  ⟨((teacher_trend_top5 c4Inp w11).2.2 (by decide)).1,
   (teacher_trend_top5 c4Inp [wTRow]).2.1 (by decide)⟩

/-- C10: the `pd.cut` age binning of the teacher–student heatmap assigns
every `Student_Age` in (0, 100] exactly one of the five labels, assigns
no label to ages that are 0, negative, or above 100, and an unlabelled
row contributes to no unique-student count (its NaN group is dropped by
`groupby`). -/
theorem age_group_partition (a : Int) (df : List TPRow) (r : TPRow)
    (t g : String) :
    (0 < a ∧ a ≤ 100 →
      ∃ lab, ageGroup a = some lab ∧ lab ∈ ageGroupLabels
        ∧ ∀ lab2, ageGroup a = some lab2 → lab2 = lab)
    ∧ (a ≤ 0 ∨ 100 < a → ageGroup a = none)
    ∧ (ageGroup r.studentAge = none →
        uniqueStudentCount (r :: df) t g = uniqueStudentCount df t g) := by
  refine ⟨?_, ?_, ?_⟩
  · rintro ⟨h0, h100⟩
    unfold ageGroup
    split_ifs with h1 h2 h3 h4 h5
    · exact ⟨"0-20", rfl, by simp [ageGroupLabels], fun _ h => (Option.some_injective _ h).symm⟩
    · exact ⟨"21-30", rfl, by simp [ageGroupLabels], fun _ h => (Option.some_injective _ h).symm⟩
    · exact ⟨"31-40", rfl, by simp [ageGroupLabels], fun _ h => (Option.some_injective _ h).symm⟩
    · exact ⟨"41-50", rfl, by simp [ageGroupLabels], fun _ h => (Option.some_injective _ h).symm⟩
    · exact ⟨"50+", rfl, by simp [ageGroupLabels], fun _ h => (Option.some_injective _ h).symm⟩
    · omega
  · intro h
    unfold ageGroup
    split_ifs with h1 h2 h3 h4 h5 <;> first | rfl | omega
  · intro hnone
    unfold uniqueStudentCount
    rw [List.filter_cons]
    have : ¬ (r.teacherName = t ∧ ageGroup r.studentAge = some g) := by
      rintro ⟨_, hg⟩
      rw [hnone] at hg
      exact Option.noConfusion hg
    rw [if_neg (by simpa using this)]

/-- Witness for C10: age 25 lands in exactly the 21-30 bin; age 101 is
unlabelled, and an age-101 row does not change the unique-student count
of any cell. -/
theorem age_group_partition_witness :
    (∃ lab, ageGroup 25 = some lab ∧ lab ∈ ageGroupLabels
      ∧ ∀ lab2, ageGroup 25 = some lab2 → lab2 = lab)
    ∧ ageGroup 101 = none
    ∧ uniqueStudentCount ({ wT 1 "T1" with studentAge := 101 } :: [wT 2 "T2"])
        "T1" "21-30" = uniqueStudentCount [wT 2 "T2"] "T1" "21-30" :=
  ⟨(age_group_partition 25 [] (wT 1 "T1") "T1" "21-30").1 (by decide),
   (age_group_partition 101 [] (wT 1 "T1") "T1" "21-30").2.1 (by decide),
   (age_group_partition (25 : Int) [wT 2 "T2"]
      { wT 1 "T1" with studentAge := 101 } "T1" "21-30").2.2 (by decide)⟩
